import Mathlib

/-!
Shallow embedding of the simulation core of a browser-based 2D jet-plane
arcade game (React/TypeScript frontend).  Entity positions are percentages
of the playfield; velocities are pixels per second; collision radii and
playfield dimensions are pixels.  JavaScript numbers are modelled as exact
real numbers: every real is finite, so the source's isFinite guards are
identically true in this model, and Math.sqrt, Math.pow, Math.sin, Math.cos
become Real.sqrt, Real.rpow, Real.sin, Real.cos.

The embedded functions follow the repository's sources:
  * physics/bounds (clampPosition, reflectAtBounds, isOutOfBounds),
  * physics/playerObstacleHit (isFullHit),
  * physics/obstacleCollisions (resolveObstacleCollision),
  * physics/vectors (angleToForwardVector, pixelVelocityToPercent,
    offsetPosition),
  * utils/levelTimer (getLevelDuration),
  * utils/joystickMovement (processJoystickInput),
  * hooks/useJoystickSensitivity (startup validation),
  * GameScreen (game-loop steps: countdown, bullet integration,
    bullet-obstacle resolution, triggerGameOver of the reason-tracking
    variant).
-/

namespace JetGame

noncomputable section

/-- A 2D point in playfield-percent coordinates. -/
structure Position where
  x : ℝ
  y : ℝ

/-- A 2D vector, used for velocities (pixels per second or percent per
frame) and for unit directions. -/
structure Velocity where
  x : ℝ
  y : ℝ

/-- The game lifecycle phase (type GameState in GameScreen). -/
inductive GamePhase where
  | idle
  | playing
  | exploding
  | gameover
  | paused
  | levelcomplete
  deriving DecidableEq

/-- The recorded cause of a game over; the source's null is modelled by
Option. -/
inductive GameOverReason where
  | border
  | obstacle
  | timeExpired
  deriving DecidableEq

/-- Obstacle size class. -/
inductive ObstacleSize where
  | small
  | medium
  | large
  deriving DecidableEq

/-! ### Constants of GameScreen -/

def JET_SIZE : ℝ := 32

def BULLET_SPEED : ℝ := 400

def BASE_MOVEMENT_SPEED : ℝ := 180

def OBSTACLE_SIZE_SMALL : ℝ := 18

def OBSTACLE_SIZE_MEDIUM : ℝ := 24

def OBSTACLE_SIZE_LARGE : ℝ := 30

def BOSS_SIZE : ℝ := 50

def BULLET_SIZE : ℝ := 4

def BULLET_SPAWN_OFFSET : ℝ := 30

def BOSS_MAX_HITS : ℤ := 15

def SCORE_SMALL : ℤ := 5

def SCORE_MEDIUM : ℤ := 10

def SCORE_LARGE : ℤ := 15

/-- Fixed delta time for bullet velocity calculation (60 FPS). -/
def BULLET_DELTA_TIME : ℝ := 1 / 60

/-! ### physics/bounds -/

/-- clampPosition from physics/bounds: clamps a percent position using a
lower bound derived from the playfield width on BOTH axes (minPercent) and
per-axis upper bounds. -/
def clampPosition (pos : Position) (maxWidth maxHeight entityHalfSize : ℝ) :
    Position :=
  let minPercent := entityHalfSize / maxWidth * 100
  let maxPercentX := 100 - minPercent
  let maxPercentY := 100 - entityHalfSize / maxHeight * 100
  ⟨max minPercent (min maxPercentX pos.x),
   max minPercent (min maxPercentY pos.y)⟩

/-- Result record of reflectAtBounds. -/
structure BoundsResult where
  position : Position
  velocity : Velocity

/-- reflectAtBounds from physics/bounds.  On each axis: below the lower
bound the position snaps to the bound and the velocity component becomes
its absolute value (bounce right/down); above the upper bound the position
snaps to the bound and the velocity component becomes minus its absolute
value (bounce left/up); otherwise both are unchanged.  The JS sequential
mutation of newPos/newVel is written as per-axis conditionals. -/
def reflectAtBounds (pos : Position) (vel : Velocity)
    (maxWidth maxHeight entityHalfSize : ℝ) : BoundsResult :=
  let minPercent := entityHalfSize / maxWidth * 100
  let maxPercentX := 100 - minPercent
  let maxPercentY := 100 - entityHalfSize / maxHeight * 100
  let px := if pos.x < minPercent then minPercent
    else if pos.x > maxPercentX then maxPercentX else pos.x
  let vx := if pos.x < minPercent then |vel.x|
    else if pos.x > maxPercentX then -|vel.x| else vel.x
  let py := if pos.y < minPercent then minPercent
    else if pos.y > maxPercentY then maxPercentY else pos.y
  let vy := if pos.y < minPercent then |vel.y|
    else if pos.y > maxPercentY then -|vel.y| else vel.y
  ⟨⟨px, py⟩, ⟨vx, vy⟩⟩

/-- isOutOfBounds from physics/bounds; the same width-derived minPercent is
the lower bound of both axes. -/
def isOutOfBounds (pos : Position) (maxWidth maxHeight entityHalfSize : ℝ) :
    Prop :=
  let minPercent := entityHalfSize / maxWidth * 100
  let maxPercentX := 100 - minPercent
  let maxPercentY := 100 - entityHalfSize / maxHeight * 100
  pos.x < minPercent ∨ pos.x > maxPercentX ∨
    pos.y < minPercent ∨ pos.y > maxPercentY

/-- Modelled from the spec: isAtBorder(pos, fieldW, fieldH, radius) is true
when the entity's circle touches or exceeds the playfield boundary (spec
section 4.1).  The game screen imports isAtBorder from physics/bounds, but
its body is not among the repository's files. -/
def isAtBorder (pos : Position) (maxWidth maxHeight entityHalfSize : ℝ) :
    Prop :=
  pos.x / 100 * maxWidth - entityHalfSize ≤ 0 ∨
  maxWidth ≤ pos.x / 100 * maxWidth + entityHalfSize ∨
  pos.y / 100 * maxHeight - entityHalfSize ≤ 0 ∨
  maxHeight ≤ pos.y / 100 * maxHeight + entityHalfSize

/-! ### utils/levelTimer and level targets -/

/-- getLevelDuration from utils/levelTimer. -/
def getLevelDuration (level : ℝ) : ℝ := 30 + (level - 1) * 5

/-- OBSTACLES_PER_LEVEL of GameScreen. -/
def OBSTACLES_PER_LEVEL : ℝ := 5

/-- The per-level obstacle target of the game loop:
targetObstacles = OBSTACLES_PER_LEVEL * level. -/
def targetObstacles (level : ℝ) : ℝ := OBSTACLES_PER_LEVEL * level

/-! ### hooks/useJoystickSensitivity (startup validation) -/

def DEFAULT_SENSITIVITY : ℝ := 2

def MIN_SENSITIVITY : ℝ := 0.5

def MAX_SENSITIVITY : ℝ := 2

/-- Startup initialization of the persisted joystick sensitivity
(hooks/useJoystickSensitivity.ts).  The argument none models a missing
storage key or a stored string whose parseFloat yields NaN or a non-finite
value; some v models a stored finite numeric value v.  A value inside
[MIN_SENSITIVITY, MAX_SENSITIVITY] is accepted unchanged, anything else
falls back to DEFAULT_SENSITIVITY. -/
def initialSensitivity : Option ℝ → ℝ
  | some parsed =>
      if MIN_SENSITIVITY ≤ parsed ∧ parsed ≤ MAX_SENSITIVITY then parsed
      else DEFAULT_SENSITIVITY
  | none => DEFAULT_SENSITIVITY

/-! ### Game-over state machine (GameScreen variant with reason tracking) -/

/-- The slice of GameScreen state that the lethal triggers touch:
the phase, the recorded game-over reason, whether an exploding-to-gameover
transition is scheduled (explosionTimerRef), and the countdown value. -/
structure TriggerState where
  phase : GamePhase
  gameOverReason : Option GameOverReason
  explosionTimerPending : Bool
  timeRemaining : ℝ

/-- triggerGameOver: the centralized game-over handler.  If the phase is
already exploding or gameover it returns the state unchanged (re-entrancy
guard); otherwise it sets phase exploding, records the reason, and
schedules the exploding-to-gameover transition. -/
def triggerGameOver (w : TriggerState) (reason : GameOverReason) :
    TriggerState :=
  if w.phase = GamePhase.exploding ∨ w.phase = GamePhase.gameover then w
  else
    { w with
      phase := GamePhase.exploding
      gameOverReason := some reason
      explosionTimerPending := true }

/-- The countdown update of the game loop: newTime = max 0 (prev - dt);
the time-expired trigger fires only when newTime is 0 and prev was
positive. -/
def timerTick (w : TriggerState) (deltaSeconds : ℝ) : TriggerState :=
  let newTime := max 0 (w.timeRemaining - deltaSeconds)
  let w' :=
    if newTime = 0 ∧ 0 < w.timeRemaining then
      triggerGameOver w GameOverReason.timeExpired
    else w
  { w' with timeRemaining := newTime }

instance (pos : Position) (a b c : ℝ) : Decidable (isAtBorder pos a b c) := by
  unfold isAtBorder
  infer_instance

instance (pos : Position) (a b c : ℝ) : Decidable (isOutOfBounds pos a b c) := by
  unfold isOutOfBounds
  infer_instance

/-- The player-border branch of the game loop: border contact triggers
game over with reason border. -/
def playerBorderStep (w : TriggerState) (playerPos : Position) (W H : ℝ) :
    TriggerState :=
  if isAtBorder playerPos W H JET_SIZE then
    triggerGameOver w GameOverReason.border
  else w

/-! ### physics/playerObstacleHit -/

/-- isFullHit from physics/playerObstacleHit: percent positions are
converted to pixels, and a collision counts as a full hit when the circles
overlap and the overlap depth reaches 40 percent of the smaller radius.
The JS early returns (falsy playfield dimensions; no overlap) become
conjuncts. -/
def isFullHit (playerPos : Position) (playerRadius : ℝ)
    (obstaclePos : Position) (obstacleRadius : ℝ)
    (playfieldWidth playfieldHeight : ℝ) : Prop :=
  let x1 := playerPos.x / 100 * playfieldWidth
  let y1 := playerPos.y / 100 * playfieldHeight
  let x2 := obstaclePos.x / 100 * playfieldWidth
  let y2 := obstaclePos.y / 100 * playfieldHeight
  let distance := Real.sqrt ((x2 - x1) ^ 2 + (y2 - y1) ^ 2)
  let combinedRadius := playerRadius + obstacleRadius
  let overlapDepth := combinedRadius - distance
  let referenceRadius := min playerRadius obstacleRadius
  let fullHitThreshold := referenceRadius * 0.4
  playfieldWidth ≠ 0 ∧ playfieldHeight ≠ 0 ∧
    distance < combinedRadius ∧ overlapDepth ≥ fullHitThreshold

/-! ### physics/vectors -/

/-- angleToForwardVector: 0 degrees points up, positive rotates
clockwise. -/
def angleToForwardVector (angleDegrees : ℝ) : Velocity :=
  let angleRadians := angleDegrees * Real.pi / 180
  ⟨Real.sin angleRadians, -Real.cos angleRadians⟩

/-- pixelVelocityToPercent: scales a pixel speed along a direction into a
percent-space per-frame delta, independently per axis. -/
def pixelVelocityToPercent (velocityPixelsPerSecond : ℝ)
    (direction : Velocity) (playfieldWidth playfieldHeight deltaTime : ℝ) :
    Velocity :=
  let pixelDeltaX := direction.x * velocityPixelsPerSecond * deltaTime
  let pixelDeltaY := direction.y * velocityPixelsPerSecond * deltaTime
  ⟨pixelDeltaX / playfieldWidth * 100, pixelDeltaY / playfieldHeight * 100⟩

/-- offsetPosition: moves a percent position by a pixel offset along a
forward vector. -/
def offsetPosition (position : Position) (forwardVector : Velocity)
    (offsetPixels playfieldWidth playfieldHeight : ℝ) : Position :=
  ⟨position.x + forwardVector.x * offsetPixels / playfieldWidth * 100,
   position.y + forwardVector.y * offsetPixels / playfieldHeight * 100⟩

/-! ### Bullets (GameScreen) -/

/-- BulletData of GameScreen: the velocity (percent per frame) and the
visual angle are captured once, at fire time. -/
structure BulletData where
  id : ℕ
  position : Position
  velocityPercent : Velocity
  angle : ℝ

/-- spawnBullet: the new bullet's position, velocity and angle are computed
from the player position and facing angle snapshotted at the fire
instant. -/
def spawnBullet (idv : ℕ) (playerPos : Position) (facingAngle : ℝ)
    (W H : ℝ) : BulletData :=
  { id := idv
    position := offsetPosition playerPos (angleToForwardVector facingAngle)
      BULLET_SPAWN_OFFSET W H
    velocityPercent := pixelVelocityToPercent BULLET_SPEED
      (angleToForwardVector facingAngle) W H BULLET_DELTA_TIME
    angle := facingAngle }

/-- One game-loop advance of a single bullet: the position moves by the
stored per-frame velocity; nothing else changes. -/
def moveBullet (b : BulletData) : BulletData :=
  { b with
    position := ⟨b.position.x + b.velocityPercent.x,
                 b.position.y + b.velocityPercent.y⟩ }

/-- The bullet-update step of the game loop: every bullet advances by its
stored velocity and bullets outside the inset bounding region are
removed. -/
def bulletsTick (W H : ℝ) (bullets : List BulletData) : List BulletData :=
  (bullets.map moveBullet).filter fun b =>
    decide (¬ isOutOfBounds b.position W H BULLET_SIZE)

/-! ### Obstacles and the bullet-obstacle resolution (GameScreen) -/

/-- ObstacleData of GameScreen (the motion-irrelevant zigzag fields are
omitted; the optional isBoss flag is a Bool defaulting to false). -/
structure ObstacleData where
  id : ℕ
  position : Position
  velocity : Velocity
  size : ObstacleSize
  isBoss : Bool

/-- The per-obstacle collision radius used throughout the game loop:
BOSS_SIZE for the boss, else the size-class radius. -/
def obstacleRadiusOf (ob : ObstacleData) : ℝ :=
  if ob.isBoss then BOSS_SIZE
  else
    match ob.size with
    | ObstacleSize.small => OBSTACLE_SIZE_SMALL
    | ObstacleSize.medium => OBSTACLE_SIZE_MEDIUM
    | ObstacleSize.large => OBSTACLE_SIZE_LARGE

/-- The score awarded for destroying a non-boss obstacle, by size class. -/
def scoreValueOf : ObstacleSize → ℤ
  | ObstacleSize.small => SCORE_SMALL
  | ObstacleSize.medium => SCORE_MEDIUM
  | ObstacleSize.large => SCORE_LARGE

/-- Outcome of processing one bullet against one obstacle: whether each is
marked for removal this tick, plus the updated score, destroyed counter,
boss hit counter and phase. -/
structure HitOutcome where
  bulletRemoved : Bool
  obstacleRemoved : Bool
  score : ℤ
  destroyedThisLevel : ℤ
  bossHits : ℤ
  phase : GamePhase

/-- The body of the bullet-obstacle collision loop of GameScreen for one
bullet-obstacle pair: on overlap (pixel distance below radius +
BULLET_SIZE) the bullet is consumed; a non-boss obstacle is removed with
its size-class score and the destroyed counter incremented; the boss
instead gains a hit, and on reaching BOSS_MAX_HITS it is removed, the
fixed 100-point bonus is added and the phase becomes levelcomplete. -/
def resolveBulletObstacle (bullet : BulletData) (ob : ObstacleData)
    (score destroyedThisLevel bossHits : ℤ) (phase : GamePhase)
    (W H : ℝ) : HitOutcome :=
  let dx := (bullet.position.x - ob.position.x) * W / 100
  let dy := (bullet.position.y - ob.position.y) * H / 100
  let distance := Real.sqrt (dx * dx + dy * dy)
  if distance < obstacleRadiusOf ob + BULLET_SIZE then
    if ob.isBoss then
      let newHits := bossHits + 1
      if newHits ≥ BOSS_MAX_HITS then
        { bulletRemoved := true
          obstacleRemoved := true
          score := score + 100
          destroyedThisLevel := destroyedThisLevel
          bossHits := newHits
          phase := GamePhase.levelcomplete }
      else
        { bulletRemoved := true
          obstacleRemoved := false
          score := score
          destroyedThisLevel := destroyedThisLevel
          bossHits := newHits
          phase := phase }
    else
      { bulletRemoved := true
        obstacleRemoved := true
        score := score + scoreValueOf ob.size
        destroyedThisLevel := destroyedThisLevel + 1
        bossHits := bossHits
        phase := phase }
  else
    { bulletRemoved := false
      obstacleRemoved := false
      score := score
      destroyedThisLevel := destroyedThisLevel
      bossHits := bossHits
      phase := phase }

/-! ### utils/joystickMovement -/

def DEADZONE : ℝ := 0.15

def SPEED_CURVE_EXPONENT : ℝ := 2.8

def MAX_SPEED_MULTIPLIER : ℝ := 0.25

/-- The joystick direction-and-speed output. -/
structure MovementOutput where
  direction : Velocity
  speedFactor : ℝ

/-- Raw joystick input: pixel displacement plus a magnitude in zero to
one. -/
structure JoystickInput where
  x : ℝ
  y : ℝ
  magnitude : ℝ

/-- processJoystickInput from utils/joystickMovement: deadzone cut-off,
unit direction from the raw displacement, magnitude remapped from the
deadzone band and raised to the speed-curve exponent (Math.pow is
Real.rpow), then scaled by the maximum-speed multiplier. -/
def processJoystickInput (input : JoystickInput) : MovementOutput :=
  if input.magnitude < DEADZONE then
    { direction := ⟨0, 0⟩, speedFactor := 0 }
  else
    let distance := Real.sqrt (input.x * input.x + input.y * input.y)
    let direction : Velocity :=
      if distance > 0 then ⟨input.x / distance, input.y / distance⟩
      else ⟨0, 0⟩
    let normalizedMagnitude := (input.magnitude - DEADZONE) / (1 - DEADZONE)
    let curvedMagnitude := normalizedMagnitude ^ SPEED_CURVE_EXPONENT
    { direction := direction
      speedFactor := curvedMagnitude * MAX_SPEED_MULTIPLIER }

/-- The movement computation of the game loop: the user sensitivity is
applied by the caller, on top of the curved speed factor, to the base
movement speed. -/
def effectiveSpeed (input : JoystickInput) (sensitivity : ℝ) : ℝ :=
  BASE_MOVEMENT_SPEED * (processJoystickInput input).speedFactor *
    sensitivity

/-! ### physics/obstacleCollisions -/

def EPSILON : ℝ := 0.001

def DAMPING : ℝ := 0.95

def MAX_IMPULSE : ℝ := 500

def MAX_VELOCITY : ℝ := 500

/-- The CollisionResult record of physics/obstacleCollisions; the optional
fields are present exactly when a collision occurred. -/
structure CollisionResult where
  collided : Bool
  newVelocity1 : Option Velocity
  newVelocity2 : Option Velocity
  newPosition1 : Option Position
  newPosition2 : Option Position

/-- The NaN/Infinity guard and clamp of physics/obstacleCollisions; over
exact reals isFinite always holds, so only the clamp branch remains. -/
def clampVelocity (v : Velocity) : Velocity :=
  ⟨max (-MAX_VELOCITY) (min MAX_VELOCITY v.x),
   max (-MAX_VELOCITY) (min MAX_VELOCITY v.y)⟩

/-- resolveObstacleCollision from physics/obstacleCollisions: on overlap,
both circles are pushed apart along the collision normal by half the
penetration depth plus EPSILON each (with the deterministic horizontal
fallback normal when the centers nearly coincide), an impulse is applied
only to approaching pairs (damped and clamped), and the resulting
velocities are clamped componentwise. -/
def resolveObstacleCollision (pos1 : Position) (vel1 : Velocity)
    (radius1 : ℝ) (pos2 : Position) (vel2 : Velocity) (radius2 : ℝ)
    (playfieldWidth playfieldHeight : ℝ) : CollisionResult :=
  let x1 := pos1.x / 100 * playfieldWidth
  let y1 := pos1.y / 100 * playfieldHeight
  let x2 := pos2.x / 100 * playfieldWidth
  let y2 := pos2.y / 100 * playfieldHeight
  let dx := x2 - x1
  let dy := y2 - y1
  let distanceSquared := dx * dx + dy * dy
  let distance := Real.sqrt distanceSquared
  let minDistance := radius1 + radius2
  if distance ≥ minDistance then
    { collided := false
      newVelocity1 := none
      newVelocity2 := none
      newPosition1 := none
      newPosition2 := none }
  else
    let nx := if distance < EPSILON then 1 else dx / distance
    let ny := if distance < EPSILON then 0 else dy / distance
    let overlap := minDistance - distance
    let separationX := (overlap / 2 + EPSILON) * nx
    let separationY := (overlap / 2 + EPSILON) * ny
    let newX1 := x1 - separationX
    let newY1 := y1 - separationY
    let newX2 := x2 + separationX
    let newY2 := y2 + separationY
    let dvx := vel2.x - vel1.x
    let dvy := vel2.y - vel1.y
    let dvn := dvx * nx + dvy * ny
    let vels :=
      if dvn < 0 then
        let impulseRaw := dvn * DAMPING
        let impulse :=
          if |impulseRaw| > MAX_IMPULSE then
            Real.sign impulseRaw * MAX_IMPULSE
          else impulseRaw
        (Velocity.mk (vel1.x + impulse * nx) (vel1.y + impulse * ny),
         Velocity.mk (vel2.x - impulse * nx) (vel2.y - impulse * ny))
      else (vel1, vel2)
    { collided := true
      newVelocity1 := some (clampVelocity vels.1)
      newVelocity2 := some (clampVelocity vels.2)
      newPosition1 := some ⟨newX1 / playfieldWidth * 100,
                            newY1 / playfieldHeight * 100⟩
      newPosition2 := some ⟨newX2 / playfieldWidth * 100,
                            newY2 / playfieldHeight * 100⟩ }

end

/-! ## Theorems -/

/-- C6: for every level number N at least 1, the target obstacle count is
5 times N and the countdown duration is 30 + 5 times (N - 1) seconds
(hence 15 obstacles and 40 seconds at level 3), and both quantities are
strictly increasing in the level number. -/
theorem levelTarget_duration_formula (n m : ℝ) (_h1 : 1 ≤ n)
    (hnm : n < m) :
    targetObstacles 3 = 15 ∧ getLevelDuration 3 = 40 ∧
    targetObstacles n = 5 * n ∧
    getLevelDuration n = 30 + 5 * (n - 1) ∧
    targetObstacles n < targetObstacles m ∧
    getLevelDuration n < getLevelDuration m := by
  unfold targetObstacles getLevelDuration OBSTACLES_PER_LEVEL
  refine ⟨by norm_num, by norm_num, by ring, by ring, ?_, ?_⟩ <;> linarith

/-- Witness for the level-arithmetic theorem at levels 1 and 2. -/
theorem levelTarget_duration_formula_witness :
    (1:ℝ) ≤ 1 ∧ (1:ℝ) < 2 ∧
    (targetObstacles 3 = 15 ∧ getLevelDuration 3 = 40 ∧
      targetObstacles 1 = 5 * 1 ∧
      getLevelDuration 1 = 30 + 5 * (1 - 1) ∧
      targetObstacles 1 < targetObstacles 2 ∧
      getLevelDuration 1 < getLevelDuration 2) :=
  ⟨by norm_num, by norm_num,
    levelTarget_duration_formula 1 2 (by norm_num) (by norm_num)⟩

/-- C4: once the phase is exploding or gameover, any further lethal
trigger is a no-op; further ticks with the countdown already at zero
change neither phase, reason, nor the pending transition; and the
countdown reaching zero while playing records timeExpired and schedules
the exploding-to-gameover transition. -/
theorem gameOver_trigger_once (w : TriggerState) (r : GameOverReason)
    (dt : ℝ) (hdt : 0 ≤ dt) :
    ((w.phase = GamePhase.exploding ∨ w.phase = GamePhase.gameover) →
      triggerGameOver w r = w) ∧
    (w.timeRemaining = 0 →
      (timerTick w dt).phase = w.phase ∧
      (timerTick w dt).gameOverReason = w.gameOverReason ∧
      (timerTick w dt).explosionTimerPending = w.explosionTimerPending ∧
      (timerTick w dt).timeRemaining = 0) ∧
    (w.phase = GamePhase.playing → 0 < w.timeRemaining →
      w.timeRemaining ≤ dt →
      (timerTick w dt).phase = GamePhase.exploding ∧
      (timerTick w dt).gameOverReason = some GameOverReason.timeExpired ∧
      (timerTick w dt).explosionTimerPending = true ∧
      (timerTick w dt).timeRemaining = 0) := by
  refine ⟨fun h => ?_, fun h0 => ?_, fun hp hpos hle => ?_⟩
  · unfold triggerGameOver
    rw [if_pos h]
  · have hcond : ¬ (max 0 (w.timeRemaining - dt) = 0 ∧
        0 < w.timeRemaining) := by
      rintro ⟨-, hlt⟩
      rw [h0] at hlt
      exact lt_irrefl 0 hlt
    simp only [timerTick]
    rw [if_neg hcond]
    refine ⟨rfl, rfl, rfl, ?_⟩
    simp only [h0]
    rw [max_eq_left (by linarith)]
  · have hmax : max 0 (w.timeRemaining - dt) = 0 :=
      max_eq_left (by linarith)
    have hguard : ¬ (w.phase = GamePhase.exploding ∨
        w.phase = GamePhase.gameover) := by
      rw [hp]
      rintro (h | h) <;> exact GamePhase.noConfusion h
    simp only [timerTick]
    rw [if_pos ⟨hmax, hpos⟩]
    simp only [triggerGameOver]
    rw [if_neg hguard]
    exact ⟨rfl, rfl, rfl, hmax⟩

/-- Witness for the game-over trigger theorem: a playing state with one
second left and a two-second tick. -/
theorem gameOver_trigger_once_witness :
    (0:ℝ) ≤ 2 ∧
    ((((⟨GamePhase.playing, none, false, 1⟩ : TriggerState).phase =
          GamePhase.exploding ∨
        (⟨GamePhase.playing, none, false, 1⟩ : TriggerState).phase =
          GamePhase.gameover) →
      triggerGameOver ⟨GamePhase.playing, none, false, 1⟩
        GameOverReason.border = ⟨GamePhase.playing, none, false, 1⟩) ∧
    ((⟨GamePhase.playing, none, false, 1⟩ : TriggerState).timeRemaining =
        0 →
      (timerTick ⟨GamePhase.playing, none, false, 1⟩ 2).phase =
        (⟨GamePhase.playing, none, false, 1⟩ : TriggerState).phase ∧
      (timerTick ⟨GamePhase.playing, none, false, 1⟩ 2).gameOverReason =
        (⟨GamePhase.playing, none, false, 1⟩ :
          TriggerState).gameOverReason ∧
      (timerTick ⟨GamePhase.playing, none, false, 1⟩
          2).explosionTimerPending =
        (⟨GamePhase.playing, none, false, 1⟩ :
          TriggerState).explosionTimerPending ∧
      (timerTick ⟨GamePhase.playing, none, false, 1⟩ 2).timeRemaining =
        0) ∧
    ((⟨GamePhase.playing, none, false, 1⟩ : TriggerState).phase =
        GamePhase.playing →
      0 < (⟨GamePhase.playing, none, false, 1⟩ :
        TriggerState).timeRemaining →
      (⟨GamePhase.playing, none, false, 1⟩ :
        TriggerState).timeRemaining ≤ 2 →
      (timerTick ⟨GamePhase.playing, none, false, 1⟩ 2).phase =
        GamePhase.exploding ∧
      (timerTick ⟨GamePhase.playing, none, false, 1⟩ 2).gameOverReason =
        some GameOverReason.timeExpired ∧
      (timerTick ⟨GamePhase.playing, none, false, 1⟩
          2).explosionTimerPending = true ∧
      (timerTick ⟨GamePhase.playing, none, false, 1⟩ 2).timeRemaining =
        0)) :=
  ⟨by norm_num,
    gameOver_trigger_once ⟨GamePhase.playing, none, false, 1⟩
      GameOverReason.border 2 (by norm_num)⟩

/-- C9 counterexample: the stored value 0.4 lies inside the claimed range
(0, 2] yet the startup validation discards it, and the startup default is
2, not the claimed 1. -/
theorem initialSensitivity_claim_counterexample :
    initialSensitivity (some 0.4) = 2 ∧ (0.4:ℝ) ≠ 2 ∧
    initialSensitivity none = 2 ∧ DEFAULT_SENSITIVITY ≠ 1 := by
  refine ⟨?_, by norm_num, ?_, by norm_num [DEFAULT_SENSITIVITY]⟩
  · simp only [initialSensitivity]
    rw [if_neg (by norm_num [MIN_SENSITIVITY, MAX_SENSITIVITY])]
    norm_num [DEFAULT_SENSITIVITY]
  · norm_num [initialSensitivity, DEFAULT_SENSITIVITY]

/-- C9 (amended): the persisted joystick sensitivity has range
[0.5, 2] with default 2.0: a stored value that is missing, non-numeric or
non-finite (none) or outside [0.5, 2] is discarded in favor of 2.0, and
every stored value within [0.5, 2] is accepted unchanged. -/
theorem initialSensitivity_validation (v : ℝ) :
    (MIN_SENSITIVITY ≤ v ∧ v ≤ MAX_SENSITIVITY →
      initialSensitivity (some v) = v) ∧
    (v < MIN_SENSITIVITY ∨ MAX_SENSITIVITY < v →
      initialSensitivity (some v) = DEFAULT_SENSITIVITY) ∧
    initialSensitivity none = DEFAULT_SENSITIVITY := by
  refine ⟨fun h => ?_, fun h => ?_, rfl⟩
  · simp only [initialSensitivity]
    rw [if_pos h]
  · simp only [initialSensitivity]
    rw [if_neg]
    rintro ⟨h1, h2⟩
    rcases h with h | h <;> linarith

/-- C5 counterexample: an obstacle at x = -5 percent (beyond the lower
bound, 10 percent) moving inward with velocity.x = 10 has its position
clamped (so the clamped position differs from the raw position on the x
axis), yet reflectAtBounds keeps velocity.x = 10; the negation demanded by
the claim would give -10. -/
theorem reflectAtBounds_negation_counterexample :
    (reflectAtBounds ⟨-5, 50⟩ ⟨10, 0⟩ 100 100 10).position.x = 10 ∧
    (-5:ℝ) ≠ 10 ∧
    (reflectAtBounds ⟨-5, 50⟩ ⟨10, 0⟩ 100 100 10).velocity.x = 10 ∧
    (10:ℝ) ≠ -10 := by
  norm_num [reflectAtBounds]

/-- C5 (amended): on each axis where the integrated position crosses a
bound, reflectAtBounds clamps the position onto the bound and sets that
axis's velocity component to point back into the field (its absolute value
at the lower bound, minus its absolute value at the upper bound — a
negation only when the velocity pointed outward); uncrossed axes are
unchanged; the output position always lies within the bounds, so obstacles
never leave the field; the player at the same border instead gets game
over with reason border. -/
theorem reflectAtBounds_inward_bounce (pos : Position) (vel : Velocity)
    (W H r : ℝ) (hW : 0 < W) (hH : 0 < H) (hr : 0 ≤ r)
    (h2W : 2 * r ≤ W) (h2H : 2 * r ≤ H) :
    (pos.x < r / W * 100 →
      (reflectAtBounds pos vel W H r).position.x = r / W * 100 ∧
      (reflectAtBounds pos vel W H r).velocity.x = |vel.x|) ∧
    (100 - r / W * 100 < pos.x →
      (reflectAtBounds pos vel W H r).position.x = 100 - r / W * 100 ∧
      (reflectAtBounds pos vel W H r).velocity.x = -|vel.x|) ∧
    (r / W * 100 ≤ pos.x → pos.x ≤ 100 - r / W * 100 →
      (reflectAtBounds pos vel W H r).position.x = pos.x ∧
      (reflectAtBounds pos vel W H r).velocity.x = vel.x) ∧
    (pos.y < r / W * 100 →
      (reflectAtBounds pos vel W H r).position.y = r / W * 100 ∧
      (reflectAtBounds pos vel W H r).velocity.y = |vel.y|) ∧
    (100 - r / H * 100 < pos.y →
      (reflectAtBounds pos vel W H r).position.y = 100 - r / H * 100 ∧
      (reflectAtBounds pos vel W H r).velocity.y = -|vel.y|) ∧
    (r / W * 100 ≤ pos.y → pos.y ≤ 100 - r / H * 100 →
      (reflectAtBounds pos vel W H r).position.y = pos.y ∧
      (reflectAtBounds pos vel W H r).velocity.y = vel.y) ∧
    (r / W * 100 ≤ (reflectAtBounds pos vel W H r).position.x ∧
      (reflectAtBounds pos vel W H r).position.x ≤ 100 - r / W * 100 ∧
      r / W * 100 ≤ (reflectAtBounds pos vel W H r).position.y ∧
      (reflectAtBounds pos vel W H r).position.y ≤ 100 - r / H * 100) ∧
    (∀ (w : TriggerState) (playerPos : Position),
      w.phase = GamePhase.playing →
      isAtBorder playerPos W H JET_SIZE →
      (playerBorderStep w playerPos W H).phase = GamePhase.exploding ∧
      (playerBorderStep w playerPos W H).gameOverReason =
        some GameOverReason.border) := by
  have hmW : r / W * 100 ≤ 50 := by
    have h1 : r / W ≤ 1 / 2 := by
      rw [div_le_div_iff₀ hW (by norm_num)]
      linarith
    linarith
  have hmH : r / H * 100 ≤ 50 := by
    have h1 : r / H ≤ 1 / 2 := by
      rw [div_le_div_iff₀ hH (by norm_num)]
      linarith
    linarith
  have hm0 : 0 ≤ r / W * 100 := by positivity
  have hxlow : ¬ (50 : ℝ) < r / W * 100 := by linarith
  simp only [reflectAtBounds]
  refine ⟨fun hx => ?_, fun hx => ?_, fun hx1 hx2 => ?_,
    fun hy => ?_, fun hy => ?_, fun hy1 hy2 => ?_, ?_, ?_⟩
  · rw [if_pos hx, if_pos hx]
    exact ⟨rfl, rfl⟩
  · have hnx : ¬ pos.x < r / W * 100 := by linarith
    rw [if_neg hnx, if_pos hx, if_neg hnx, if_pos hx]
    exact ⟨rfl, rfl⟩
  · have hnx : ¬ pos.x < r / W * 100 := not_lt.mpr hx1
    have hnx2 : ¬ pos.x > 100 - r / W * 100 := not_lt.mpr hx2
    rw [if_neg hnx, if_neg hnx2, if_neg hnx, if_neg hnx2]
    exact ⟨rfl, rfl⟩
  · rw [if_pos hy, if_pos hy]
    exact ⟨rfl, rfl⟩
  · have hny : ¬ pos.y < r / W * 100 := by linarith
    rw [if_neg hny, if_pos hy, if_neg hny, if_pos hy]
    exact ⟨rfl, rfl⟩
  · have hny : ¬ pos.y < r / W * 100 := not_lt.mpr hy1
    have hny2 : ¬ pos.y > 100 - r / H * 100 := not_lt.mpr hy2
    rw [if_neg hny, if_neg hny2, if_neg hny, if_neg hny2]
    exact ⟨rfl, rfl⟩
  · refine ⟨?_, ?_, ?_, ?_⟩
    · by_cases hx : pos.x < r / W * 100
      · rw [if_pos hx]
      · rw [if_neg hx]
        by_cases hx2 : pos.x > 100 - r / W * 100
        · rw [if_pos hx2]
          linarith
        · rw [if_neg hx2]
          exact not_lt.mp hx
    · by_cases hx : pos.x < r / W * 100
      · rw [if_pos hx]
        linarith
      · rw [if_neg hx]
        by_cases hx2 : pos.x > 100 - r / W * 100
        · rw [if_pos hx2]
        · rw [if_neg hx2]
          exact not_lt.mp hx2
    · by_cases hy : pos.y < r / W * 100
      · rw [if_pos hy]
      · rw [if_neg hy]
        by_cases hy2 : pos.y > 100 - r / H * 100
        · rw [if_pos hy2]
          linarith
        · rw [if_neg hy2]
          exact not_lt.mp hy
    · by_cases hy : pos.y < r / W * 100
      · rw [if_pos hy]
        linarith
      · rw [if_neg hy]
        by_cases hy2 : pos.y > 100 - r / H * 100
        · rw [if_pos hy2]
        · rw [if_neg hy2]
          exact not_lt.mp hy2
  · intro w playerPos hphase hborder
    have hguard : ¬ (w.phase = GamePhase.exploding ∨
        w.phase = GamePhase.gameover) := by
      rw [hphase]
      rintro (h | h) <;> exact GamePhase.noConfusion h
    simp only [playerBorderStep]
    rw [if_pos hborder]
    simp only [triggerGameOver]
    rw [if_neg hguard]
    exact ⟨rfl, rfl⟩

/-- Witness for the amended bounce theorem: a 10-pixel obstacle on a
100 by 100 field, below the left bound with inward velocity. -/
theorem reflectAtBounds_inward_bounce_witness :
    (0:ℝ) < 100 ∧ (0:ℝ) ≤ 10 ∧ (2 * 10 : ℝ) ≤ 100 ∧
    ((-5:ℝ) < 10 / 100 * 100 →
      (reflectAtBounds ⟨-5, 50⟩ ⟨10, 0⟩ 100 100 10).position.x =
        10 / 100 * 100 ∧
      (reflectAtBounds ⟨-5, 50⟩ ⟨10, 0⟩ 100 100 10).velocity.x =
        |(10:ℝ)|) := by
  have h := reflectAtBounds_inward_bounce ⟨-5, 50⟩ ⟨10, 0⟩ 100 100 10
    (by norm_num) (by norm_num) (by norm_num) (by norm_num) (by norm_num)
  exact ⟨by norm_num, by norm_num, by norm_num, h.1⟩

/-- C10: clampPosition clamps y into the interval whose lower bound is
width-derived; isOutOfBounds uses the same width-derived lower bound for
y; the left, right and bottom clamp bounds sit exactly one half-size from
the edge in pixels, while the top bound sits at r times H over W pixels;
concretely, on a 200 by 100 field a 10-pixel entity can be returned 5
pixels from the top, protruding past the top edge. -/
theorem clampPosition_width_derived_y_bound (pos : Position) (W H r : ℝ)
    (hW : 0 < W) (hH : 0 < H) :
    (clampPosition pos W H r).y =
      max (r / W * 100) (min (100 - r / H * 100) pos.y) ∧
    (isOutOfBounds pos W H r ↔
      pos.x < r / W * 100 ∨ pos.x > 100 - r / W * 100 ∨
      pos.y < r / W * 100 ∨ pos.y > 100 - r / H * 100) ∧
    r / W * 100 / 100 * W = r ∧
    (100 - r / W * 100) / 100 * W = W - r ∧
    (100 - r / H * 100) / 100 * H = H - r ∧
    r / W * 100 / 100 * H = r * H / W ∧
    (clampPosition ⟨50, 0⟩ 200 100 10).y / 100 * 100 < 10 := by
  have hW' := ne_of_gt hW
  have hH' := ne_of_gt hH
  refine ⟨by simp [clampPosition], by simp [isOutOfBounds],
    by field_simp; ring, by field_simp; ring, by field_simp; ring,
    by field_simp; ring, ?_⟩
  have h5 : (clampPosition ⟨50, 0⟩ 200 100 10).y = 5 := by
    simp only [clampPosition]
    norm_num
  rw [h5]
  norm_num

/-- Witness for the clamp theorem on a 200 by 100 field with a 10-pixel
half size. -/
theorem clampPosition_width_derived_y_bound_witness :
    (0:ℝ) < 200 ∧ (0:ℝ) < 100 ∧
    ((clampPosition ⟨0, 0⟩ 200 100 10).y =
      max ((10:ℝ) / 200 * 100) (min (100 - 10 / 100 * 100) 0) ∧
    (isOutOfBounds ⟨0, 0⟩ 200 100 10 ↔
      (0:ℝ) < 10 / 200 * 100 ∨ (0:ℝ) > 100 - 10 / 200 * 100 ∨
      (0:ℝ) < 10 / 200 * 100 ∨ (0:ℝ) > 100 - 10 / 100 * 100) ∧
    (10:ℝ) / 200 * 100 / 100 * 200 = 10 ∧
    (100 - (10:ℝ) / 200 * 100) / 100 * 200 = 200 - 10 ∧
    (100 - (10:ℝ) / 100 * 100) / 100 * 100 = 100 - 10 ∧
    (10:ℝ) / 200 * 100 / 100 * 100 = 10 * 100 / 200 ∧
    (clampPosition ⟨50, 0⟩ 200 100 10).y / 100 * 100 < 10) :=
  ⟨by norm_num, by norm_num,
    clampPosition_width_derived_y_bound ⟨0, 0⟩ 200 100 10 (by norm_num)
      (by norm_num)⟩

/-- C1: with positive radii and positive playfield dimensions, isFullHit
holds exactly when the circles overlap in pixel space and the overlap
depth (sum of radii minus center distance) is at least 0.4 times the
smaller radius; configurations just below the threshold are not full hits
and configurations at or above it are. -/
theorem isFullHit_iff_overlap_threshold (playerPos obstaclePos : Position)
    (rp ro W H : ℝ) (_hrp : 0 < rp) (_hro : 0 < ro) (hW : 0 < W)
    (hH : 0 < H) :
    isFullHit playerPos rp obstaclePos ro W H ↔
      Real.sqrt ((obstaclePos.x / 100 * W - playerPos.x / 100 * W) ^ 2 +
          (obstaclePos.y / 100 * H - playerPos.y / 100 * H) ^ 2) <
        rp + ro ∧
      rp + ro -
          Real.sqrt
            ((obstaclePos.x / 100 * W - playerPos.x / 100 * W) ^ 2 +
              (obstaclePos.y / 100 * H - playerPos.y / 100 * H) ^ 2) ≥
        0.4 * min rp ro := by
  simp only [isFullHit]
  constructor
  · rintro ⟨-, -, h3, h4⟩
    exact ⟨h3, by linarith⟩
  · rintro ⟨h3, h4⟩
    exact ⟨ne_of_gt hW, ne_of_gt hH, h3, by linarith⟩

/-- Witness for the full-hit characterization: the 32-pixel player against
an 18-pixel obstacle on a 100 by 100 field, centers on one horizontal
line. -/
theorem isFullHit_iff_overlap_threshold_witness :
    (0:ℝ) < 32 ∧ (0:ℝ) < 18 ∧ (0:ℝ) < 100 ∧
    (isFullHit ⟨50, 50⟩ 32 ⟨92, 50⟩ 18 100 100 ↔
      Real.sqrt (((92:ℝ) / 100 * 100 - 50 / 100 * 100) ^ 2 +
          ((50:ℝ) / 100 * 100 - 50 / 100 * 100) ^ 2) < 32 + 18 ∧
      (32:ℝ) + 18 -
          Real.sqrt (((92:ℝ) / 100 * 100 - 50 / 100 * 100) ^ 2 +
            ((50:ℝ) / 100 * 100 - 50 / 100 * 100) ^ 2) ≥
        0.4 * min 32 18) :=
  ⟨by norm_num, by norm_num, by norm_num,
    isFullHit_iff_overlap_threshold ⟨50, 50⟩ ⟨92, 50⟩ 32 18 100 100
      (by norm_num) (by norm_num) (by norm_num) (by norm_num)⟩

/-- C2: a bullet-obstacle pair whose circles overlap consumes the bullet;
a non-boss obstacle is removed with its size score (5, 10 or 15) added and
the destroyed counter incremented; the boss instead gains one hit,
survives below BOSS_MAX_HITS, and on the hit that reaches BOSS_MAX_HITS is
removed with the fixed 100-point bonus and the phase becomes
levelcomplete. -/
theorem bulletHit_outcome (bullet : BulletData) (ob : ObstacleData)
    (score destroyed bossHits : ℤ) (phase : GamePhase) (W H : ℝ)
    (hhit : Real.sqrt
        ((bullet.position.x - ob.position.x) * W / 100 *
            ((bullet.position.x - ob.position.x) * W / 100) +
          (bullet.position.y - ob.position.y) * H / 100 *
            ((bullet.position.y - ob.position.y) * H / 100)) <
      obstacleRadiusOf ob + BULLET_SIZE) :
    (resolveBulletObstacle bullet ob score destroyed bossHits phase W
        H).bulletRemoved = true ∧
    (ob.isBoss = false →
      (resolveBulletObstacle bullet ob score destroyed bossHits phase W
          H).obstacleRemoved = true ∧
      (resolveBulletObstacle bullet ob score destroyed bossHits phase W
          H).score = score + scoreValueOf ob.size ∧
      (resolveBulletObstacle bullet ob score destroyed bossHits phase W
          H).destroyedThisLevel = destroyed + 1 ∧
      (resolveBulletObstacle bullet ob score destroyed bossHits phase W
          H).bossHits = bossHits ∧
      (resolveBulletObstacle bullet ob score destroyed bossHits phase W
          H).phase = phase) ∧
    (ob.isBoss = true →
      (resolveBulletObstacle bullet ob score destroyed bossHits phase W
          H).bossHits = bossHits + 1 ∧
      (bossHits + 1 < BOSS_MAX_HITS →
        (resolveBulletObstacle bullet ob score destroyed bossHits phase W
            H).obstacleRemoved = false ∧
        (resolveBulletObstacle bullet ob score destroyed bossHits phase W
            H).score = score ∧
        (resolveBulletObstacle bullet ob score destroyed bossHits phase W
            H).phase = phase) ∧
      (BOSS_MAX_HITS ≤ bossHits + 1 →
        (resolveBulletObstacle bullet ob score destroyed bossHits phase W
            H).obstacleRemoved = true ∧
        (resolveBulletObstacle bullet ob score destroyed bossHits phase W
            H).score = score + 100 ∧
        (resolveBulletObstacle bullet ob score destroyed bossHits phase W
            H).phase = GamePhase.levelcomplete)) := by
  simp only [resolveBulletObstacle]
  rw [if_pos hhit]
  refine ⟨?_, fun hb => ?_, fun hb => ?_⟩
  · cases hob : ob.isBoss
    · rw [if_neg (by simp [hob])]
    · rw [if_pos (by simp [hob])]
      by_cases hh : bossHits + 1 ≥ BOSS_MAX_HITS
      · rw [if_pos hh]
      · rw [if_neg hh]
  · rw [if_neg (by simp [hb])]
    exact ⟨rfl, rfl, rfl, rfl, rfl⟩
  · rw [if_pos (by simp [hb])]
    refine ⟨?_, fun hlt => ?_, fun hge => ?_⟩
    · by_cases hh : bossHits + 1 ≥ BOSS_MAX_HITS
      · rw [if_pos hh]
      · rw [if_neg hh]
    · rw [if_neg (not_le.mpr hlt)]
      exact ⟨rfl, rfl, rfl⟩
    · rw [if_pos hge]
      exact ⟨rfl, rfl, rfl⟩

/-- Witness for the bullet-hit theorem: a bullet exactly on a small
non-boss obstacle on a 100 by 100 field, starting from score 0. -/
theorem bulletHit_outcome_witness :
    Real.sqrt (((50:ℝ) - 50) * 100 / 100 * (((50:ℝ) - 50) * 100 / 100) +
        ((50:ℝ) - 50) * 100 / 100 * (((50:ℝ) - 50) * 100 / 100)) <
      obstacleRadiusOf ⟨1, ⟨50, 50⟩, ⟨0, 0⟩, ObstacleSize.small, false⟩ +
        BULLET_SIZE ∧
    (resolveBulletObstacle ⟨0, ⟨50, 50⟩, ⟨0, 0⟩, 0⟩
        ⟨1, ⟨50, 50⟩, ⟨0, 0⟩, ObstacleSize.small, false⟩ 0 0 0
        GamePhase.playing 100 100).bulletRemoved = true ∧
    (resolveBulletObstacle ⟨0, ⟨50, 50⟩, ⟨0, 0⟩, 0⟩
        ⟨1, ⟨50, 50⟩, ⟨0, 0⟩, ObstacleSize.small, false⟩ 0 0 0
        GamePhase.playing 100 100).obstacleRemoved = true ∧
    (resolveBulletObstacle ⟨0, ⟨50, 50⟩, ⟨0, 0⟩, 0⟩
        ⟨1, ⟨50, 50⟩, ⟨0, 0⟩, ObstacleSize.small, false⟩ 0 0 0
        GamePhase.playing 100 100).score = 0 + 5 ∧
    (resolveBulletObstacle ⟨0, ⟨50, 50⟩, ⟨0, 0⟩, 0⟩
        ⟨1, ⟨50, 50⟩, ⟨0, 0⟩, ObstacleSize.small, false⟩ 0 0 0
        GamePhase.playing 100 100).destroyedThisLevel = 0 + 1 := by
  have hhit : Real.sqrt
      (((50:ℝ) - 50) * 100 / 100 * (((50:ℝ) - 50) * 100 / 100) +
        ((50:ℝ) - 50) * 100 / 100 * (((50:ℝ) - 50) * 100 / 100)) <
      obstacleRadiusOf ⟨1, ⟨50, 50⟩, ⟨0, 0⟩, ObstacleSize.small, false⟩ +
        BULLET_SIZE := by
    norm_num [obstacleRadiusOf, OBSTACLE_SIZE_SMALL, BULLET_SIZE,
      Real.sqrt_zero]
  have h := bulletHit_outcome ⟨0, ⟨50, 50⟩, ⟨0, 0⟩, 0⟩
    ⟨1, ⟨50, 50⟩, ⟨0, 0⟩, ObstacleSize.small, false⟩ 0 0 0
    GamePhase.playing 100 100 hhit
  obtain ⟨h1, h2, -⟩ := h
  obtain ⟨h3, h4, h5, -⟩ := h2 rfl
  exact ⟨hhit, h1, h3, h4, h5⟩

/-- C7: joystick input below the 0.15 deadzone yields speed factor 0 and
the zero direction; at or above it the direction is the unit vector of the
raw displacement and the speed factor follows the remapped power curve
times the 0.25 top-speed multiplier, staying within zero and one; the user
sensitivity is applied by the caller on top of this output. -/
theorem processJoystickInput_curve (input : JoystickInput)
    (sensitivity : ℝ) :
    (input.magnitude < 0.15 →
      processJoystickInput input = ⟨⟨0, 0⟩, 0⟩) ∧
    (0.15 ≤ input.magnitude →
      (processJoystickInput input).speedFactor =
        ((input.magnitude - 0.15) / (1 - 0.15)) ^ (2.8:ℝ) * 0.25 ∧
      (0 < Real.sqrt (input.x * input.x + input.y * input.y) →
        (processJoystickInput input).direction =
          ⟨input.x / Real.sqrt (input.x * input.x + input.y * input.y),
           input.y /
             Real.sqrt (input.x * input.x + input.y * input.y)⟩) ∧
      (input.magnitude ≤ 1 →
        0 ≤ (processJoystickInput input).speedFactor ∧
        (processJoystickInput input).speedFactor ≤ 1)) ∧
    effectiveSpeed input sensitivity =
      BASE_MOVEMENT_SPEED * (processJoystickInput input).speedFactor *
        sensitivity := by
  have hdz : DEADZONE = (0.15:ℝ) := rfl
  refine ⟨fun h => ?_, fun h => ?_, rfl⟩
  · simp only [processJoystickInput]
    rw [if_pos (hdz ▸ h)]
  · have hnot : ¬ input.magnitude < DEADZONE := not_lt.mpr (hdz ▸ h)
    simp only [processJoystickInput]
    rw [if_neg hnot]
    refine ⟨?_, fun hd => ?_, fun h1 => ?_⟩
    · norm_num [DEADZONE, SPEED_CURVE_EXPONENT, MAX_SPEED_MULTIPLIER]
    · rw [if_pos hd]
    · have ht0 : 0 ≤ (input.magnitude - DEADZONE) / (1 - DEADZONE) := by
        apply div_nonneg
        · rw [hdz]; linarith
        · norm_num [DEADZONE]
      have ht1 : (input.magnitude - DEADZONE) / (1 - DEADZONE) ≤ 1 := by
        rw [div_le_one (by norm_num [DEADZONE])]
        rw [hdz]
        linarith
      have hp0 : 0 ≤ ((input.magnitude - DEADZONE) / (1 - DEADZONE)) ^
          SPEED_CURVE_EXPONENT := Real.rpow_nonneg ht0 _
      have hp1 : ((input.magnitude - DEADZONE) / (1 - DEADZONE)) ^
          SPEED_CURVE_EXPONENT ≤ 1 :=
        Real.rpow_le_one ht0 ht1 (by norm_num [SPEED_CURVE_EXPONENT])
      constructor
      · apply mul_nonneg hp0
        norm_num [MAX_SPEED_MULTIPLIER]
      · have : ((input.magnitude - DEADZONE) / (1 - DEADZONE)) ^
            SPEED_CURVE_EXPONENT * MAX_SPEED_MULTIPLIER ≤
            1 * MAX_SPEED_MULTIPLIER := by
          apply mul_le_mul_of_nonneg_right hp1
          norm_num [MAX_SPEED_MULTIPLIER]
        have hM : (1:ℝ) * MAX_SPEED_MULTIPLIER ≤ 1 := by
          norm_num [MAX_SPEED_MULTIPLIER]
        linarith

/-- Auxiliary fact for the bullet system: after k bullet ticks, every
surviving bullet descends from a bullet of the initial list whose id,
angle and velocity it keeps unchanged, its position advanced by exactly k
times that velocity. -/
theorem mem_bulletsTick_iterate (W H : ℝ) (k : ℕ) (bs : List BulletData)
    (b' : BulletData) (h : b' ∈ (bulletsTick W H)^[k] bs) :
    ∃ b ∈ bs, b'.id = b.id ∧ b'.angle = b.angle ∧
      b'.velocityPercent = b.velocityPercent ∧
      b'.position.x = b.position.x + k * b.velocityPercent.x ∧
      b'.position.y = b.position.y + k * b.velocityPercent.y := by
  induction k generalizing b' with
  | zero =>
    simp only [Function.iterate_zero, id_eq] at h
    exact ⟨b', h, rfl, rfl, rfl, by simp, by simp⟩
  | succ k ih =>
    rw [Function.iterate_succ_apply'] at h
    simp only [bulletsTick] at h
    obtain ⟨hmem, -⟩ := List.mem_filter.mp h
    obtain ⟨c, hc, hcb⟩ := List.mem_map.mp hmem
    obtain ⟨b, hb, hid, hangle, hvel, hx, hy⟩ := ih c hc
    subst hcb
    have hvx : c.velocityPercent.x = b.velocityPercent.x :=
      congrArg Velocity.x hvel
    have hvy : c.velocityPercent.y = b.velocityPercent.y :=
      congrArg Velocity.y hvel
    refine ⟨b, hb, hid, hangle, hvel, ?_, ?_⟩
    · show c.position.x + c.velocityPercent.x = _
      rw [hx, hvx]
      push_cast
      ring
    · show c.position.y + c.velocityPercent.y = _
      rw [hy, hvy]
      push_cast
      ring

/-- C8: every bullet alive k ticks after being spawned still carries
exactly the velocity computed from the player position and facing angle
snapshotted at the fire instant, and its position is the spawn position
advanced by exactly k times that fixed per-frame velocity; later input
never alters an in-flight projectile. -/
theorem bullet_velocity_immutable (W H : ℝ) (idv : ℕ) (p : Position)
    (θ : ℝ) (k : ℕ) (b' : BulletData)
    (hb : b' ∈ (bulletsTick W H)^[k] [spawnBullet idv p θ W H]) :
    b'.velocityPercent =
      pixelVelocityToPercent BULLET_SPEED (angleToForwardVector θ) W H
        BULLET_DELTA_TIME ∧
    b'.position.x =
      (offsetPosition p (angleToForwardVector θ) BULLET_SPAWN_OFFSET W
          H).x +
        k * (pixelVelocityToPercent BULLET_SPEED (angleToForwardVector θ)
          W H BULLET_DELTA_TIME).x ∧
    b'.position.y =
      (offsetPosition p (angleToForwardVector θ) BULLET_SPAWN_OFFSET W
          H).y +
        k * (pixelVelocityToPercent BULLET_SPEED (angleToForwardVector θ)
          W H BULLET_DELTA_TIME).y := by
  obtain ⟨b, hbmem, hid, hangle, hvel, hx, hy⟩ :=
    mem_bulletsTick_iterate W H k _ b' hb
  rw [List.mem_singleton] at hbmem
  subst hbmem
  exact ⟨hvel, hx, hy⟩

/-- Witness for projectile immutability: one bullet fired straight up from
the field center, tracked one tick after spawning. -/
theorem bullet_velocity_immutable_witness :
    (⟨0, ⟨50, 40 / 3⟩, ⟨0, -(20 / 3)⟩, 0⟩ : BulletData) ∈
      (bulletsTick 100 100)^[1] [spawnBullet 0 ⟨50, 50⟩ 0 100 100] ∧
    (⟨0, ⟨50, 40 / 3⟩, ⟨0, -(20 / 3)⟩, 0⟩ : BulletData).velocityPercent =
      pixelVelocityToPercent BULLET_SPEED (angleToForwardVector 0) 100 100
        BULLET_DELTA_TIME := by
  have hfwd : angleToForwardVector 0 = ⟨0, -1⟩ := by
    simp [angleToForwardVector]
  have hspawn : spawnBullet 0 ⟨50, 50⟩ 0 100 100 =
      ⟨0, ⟨50, 20⟩, ⟨0, -(20 / 3)⟩, 0⟩ := by
    simp only [spawnBullet, hfwd, offsetPosition, pixelVelocityToPercent,
      BULLET_SPAWN_OFFSET, BULLET_SPEED, BULLET_DELTA_TIME]
    norm_num
  have hmem : (⟨0, ⟨50, 40 / 3⟩, ⟨0, -(20 / 3)⟩, 0⟩ : BulletData) ∈
      (bulletsTick 100 100)^[1] [spawnBullet 0 ⟨50, 50⟩ 0 100 100] := by
    rw [Function.iterate_one, hspawn]
    simp only [bulletsTick, List.map_cons, List.map_nil, moveBullet]
    refine List.mem_filter.mpr ⟨?_, ?_⟩
    · apply List.mem_singleton.mpr
      norm_num
    · simp only [decide_eq_true_eq, isOutOfBounds]
      push_neg
      norm_num [BULLET_SIZE]
  exact ⟨hmem,
    (bullet_velocity_immutable 100 100 0 ⟨50, 50⟩ 0 1 _ hmem).1⟩

/-- The componentwise velocity clamp never exceeds MAX_VELOCITY in
absolute value. -/
theorem abs_clamp_le (x : ℝ) :
    |max (-MAX_VELOCITY) (min MAX_VELOCITY x)| ≤ MAX_VELOCITY := by
  rw [abs_le]
  constructor
  · exact le_max_left _ _
  · exact max_le (by norm_num [MAX_VELOCITY]) (min_le_left _ _)

/-- Core geometric fact of the obstacle separation: pushing the two pixel
centers apart along the collision normal (or along the horizontal fallback
normal when the distance is below EPSILON) by half the overlap plus
EPSILON each leaves them at least the sum of the radii apart. -/
theorem separation_distance (dx dy d r1 r2 s nx ny : ℝ)
    (hd : d = Real.sqrt (dx * dx + dy * dy)) (hover : d < r1 + r2)
    (hs : s = (r1 + r2 - d) / 2 + EPSILON)
    (hn : (d < EPSILON ∧ nx = 1 ∧ ny = 0) ∨
      (EPSILON ≤ d ∧ nx = dx / d ∧ ny = dy / d)) :
    r1 + r2 ≤
      Real.sqrt ((dx + 2 * (s * nx)) * (dx + 2 * (s * nx)) +
        (dy + 2 * (s * ny)) * (dy + 2 * (s * ny))) := by
  have heps : (0:ℝ) < EPSILON := by norm_num [EPSILON]
  have hd0 : 0 ≤ d := hd ▸ Real.sqrt_nonneg _
  have hdd : d * d = dx * dx + dy * dy := by
    rw [hd]
    exact Real.mul_self_sqrt
      (add_nonneg (mul_self_nonneg dx) (mul_self_nonneg dy))
  rcases hn with ⟨hlt, hnx, hny⟩ | ⟨hge, hnx, hny⟩
  · subst hnx hny
    have hdx2 : dx * dx ≤ d * d := by nlinarith [mul_self_nonneg dy]
    have hdxabs : |dx| ≤ d := by
      calc |dx| = Real.sqrt (dx * dx) :=
            (Real.sqrt_mul_self_eq_abs dx).symm
        _ ≤ Real.sqrt (d * d) := Real.sqrt_le_sqrt hdx2
        _ = d := Real.sqrt_mul_self hd0
    have hkey : r1 + r2 ≤ dx + 2 * (s * 1) := by
      have hdxlow : -d ≤ dx := neg_le_of_abs_le hdxabs
      rw [hs]
      linarith
    calc r1 + r2 ≤ dx + 2 * (s * 1) := hkey
      _ ≤ |dx + 2 * (s * 1)| := le_abs_self _
      _ = Real.sqrt ((dx + 2 * (s * 1)) * (dx + 2 * (s * 1))) :=
          (Real.sqrt_mul_self_eq_abs _).symm
      _ ≤ Real.sqrt ((dx + 2 * (s * 1)) * (dx + 2 * (s * 1)) +
            (dy + 2 * (s * 0)) * (dy + 2 * (s * 0))) :=
          Real.sqrt_le_sqrt
            (by nlinarith [mul_self_nonneg (dy + 2 * (s * 0))])
  · subst hnx hny
    have hdpos : 0 < d := lt_of_lt_of_le heps hge
    have hdne : d ≠ 0 := ne_of_gt hdpos
    have hkey : (dx + 2 * (s * (dx / d))) * (dx + 2 * (s * (dx / d))) +
        (dy + 2 * (s * (dy / d))) * (dy + 2 * (s * (dy / d))) =
        (d + 2 * s) * (d + 2 * s) := by
      have e1 : dx + 2 * (s * (dx / d)) = dx * ((d + 2 * s) / d) := by
        field_simp
        ring
      have e2 : dy + 2 * (s * (dy / d)) = dy * ((d + 2 * s) / d) := by
        field_simp
        ring
      rw [e1, e2]
      have e3 : dx * ((d + 2 * s) / d) * (dx * ((d + 2 * s) / d)) +
          dy * ((d + 2 * s) / d) * (dy * ((d + 2 * s) / d)) =
          (dx * dx + dy * dy) * ((d + 2 * s) / d) * ((d + 2 * s) / d) :=
        by ring
      rw [e3, ← hdd]
      field_simp
      ring
    have hds : 0 ≤ d + 2 * s := by
      rw [hs]
      linarith
    rw [hkey, Real.sqrt_mul_self hds, hs]
    linarith

/-- C3 (amended): for every pair of overlapping circles on a playfield
with positive dimensions, resolveObstacleCollision reports the collision
and returns positions whose pixel-space center distance is at least the
sum of the radii — each circle moved along the collision normal by half
the penetration depth plus the fixed 0.001 EPSILON, as the fallback-case
clause below makes explicit — with the deterministic purely-horizontal
fallback normal taken when the center distance is below EPSILON, and
velocities clamped within MAX_VELOCITY componentwise; all values are
finite by construction over exact reals. -/
theorem resolveObstacleCollision_separates (pos1 : Position)
    (vel1 : Velocity) (radius1 : ℝ) (pos2 : Position) (vel2 : Velocity)
    (radius2 : ℝ) (W H : ℝ) (hW : 0 < W) (hH : 0 < H)
    (hover : Real.sqrt
        ((pos2.x / 100 * W - pos1.x / 100 * W) *
            (pos2.x / 100 * W - pos1.x / 100 * W) +
          (pos2.y / 100 * H - pos1.y / 100 * H) *
            (pos2.y / 100 * H - pos1.y / 100 * H)) <
      radius1 + radius2) :
    ∃ p1 p2 v1 v2,
      (resolveObstacleCollision pos1 vel1 radius1 pos2 vel2 radius2 W
          H).collided = true ∧
      (resolveObstacleCollision pos1 vel1 radius1 pos2 vel2 radius2 W
          H).newPosition1 = some p1 ∧
      (resolveObstacleCollision pos1 vel1 radius1 pos2 vel2 radius2 W
          H).newPosition2 = some p2 ∧
      (resolveObstacleCollision pos1 vel1 radius1 pos2 vel2 radius2 W
          H).newVelocity1 = some v1 ∧
      (resolveObstacleCollision pos1 vel1 radius1 pos2 vel2 radius2 W
          H).newVelocity2 = some v2 ∧
      radius1 + radius2 ≤ Real.sqrt
        ((p2.x / 100 * W - p1.x / 100 * W) *
            (p2.x / 100 * W - p1.x / 100 * W) +
          (p2.y / 100 * H - p1.y / 100 * H) *
            (p2.y / 100 * H - p1.y / 100 * H)) ∧
      |v1.x| ≤ MAX_VELOCITY ∧ |v1.y| ≤ MAX_VELOCITY ∧
      |v2.x| ≤ MAX_VELOCITY ∧ |v2.y| ≤ MAX_VELOCITY ∧
      (Real.sqrt
          ((pos2.x / 100 * W - pos1.x / 100 * W) *
              (pos2.x / 100 * W - pos1.x / 100 * W) +
            (pos2.y / 100 * H - pos1.y / 100 * H) *
              (pos2.y / 100 * H - pos1.y / 100 * H)) < EPSILON →
        p1.x = (pos1.x / 100 * W -
            ((radius1 + radius2 - Real.sqrt
                ((pos2.x / 100 * W - pos1.x / 100 * W) *
                    (pos2.x / 100 * W - pos1.x / 100 * W) +
                  (pos2.y / 100 * H - pos1.y / 100 * H) *
                    (pos2.y / 100 * H - pos1.y / 100 * H))) / 2 +
              EPSILON)) / W * 100 ∧
        p2.x = (pos2.x / 100 * W +
            ((radius1 + radius2 - Real.sqrt
                ((pos2.x / 100 * W - pos1.x / 100 * W) *
                    (pos2.x / 100 * W - pos1.x / 100 * W) +
                  (pos2.y / 100 * H - pos1.y / 100 * H) *
                    (pos2.y / 100 * H - pos1.y / 100 * H))) / 2 +
              EPSILON)) / W * 100 ∧
        p1.y = pos1.y ∧ p2.y = pos2.y) := by
  have hW' : W ≠ 0 := ne_of_gt hW
  have hH' : H ≠ 0 := ne_of_gt hH
  have hno : ¬ (Real.sqrt
      ((pos2.x / 100 * W - pos1.x / 100 * W) *
          (pos2.x / 100 * W - pos1.x / 100 * W) +
        (pos2.y / 100 * H - pos1.y / 100 * H) *
          (pos2.y / 100 * H - pos1.y / 100 * H)) ≥
      radius1 + radius2) := not_le.mpr hover
  simp only [resolveObstacleCollision]
  rw [if_neg hno]
  set dx := pos2.x / 100 * W - pos1.x / 100 * W with hdxdef
  set dy := pos2.y / 100 * H - pos1.y / 100 * H with hdydef
  set d := Real.sqrt (dx * dx + dy * dy) with hddef
  set s := (radius1 + radius2 - d) / 2 + EPSILON with hsdef
  set nx := if d < EPSILON then (1:ℝ) else dx / d with hnxdef
  set ny := if d < EPSILON then (0:ℝ) else dy / d with hnydef
  have hn : (d < EPSILON ∧ nx = 1 ∧ ny = 0) ∨
      (EPSILON ≤ d ∧ nx = dx / d ∧ ny = dy / d) := by
    by_cases hc : d < EPSILON
    · exact Or.inl ⟨hc, by rw [hnxdef, if_pos hc],
        by rw [hnydef, if_pos hc]⟩
    · exact Or.inr ⟨not_lt.mp hc, by rw [hnxdef, if_neg hc],
        by rw [hnydef, if_neg hc]⟩
  refine ⟨_, _, _, _, rfl, rfl, rfl, rfl, rfl, ?_, ?_, ?_, ?_, ?_, ?_⟩
  · have hrtW : ∀ a : ℝ, a / W * 100 / 100 * W = a := fun a => by
      field_simp
      ring
    have hrtH : ∀ a : ℝ, a / H * 100 / 100 * H = a := fun a => by
      field_simp
      ring
    simp only [hrtW, hrtH]
    have harrX : pos2.x / 100 * W + s * nx -
        (pos1.x / 100 * W - s * nx) = dx + 2 * (s * nx) := by
      rw [hdxdef]
      ring
    have harrY : pos2.y / 100 * H + s * ny -
        (pos1.y / 100 * H - s * ny) = dy + 2 * (s * ny) := by
      rw [hdydef]
      ring
    rw [harrX, harrY]
    exact separation_distance dx dy d radius1 radius2 s nx ny hddef
      hover hsdef hn
  · exact abs_clamp_le _
  · exact abs_clamp_le _
  · exact abs_clamp_le _
  · exact abs_clamp_le _
  · intro hc
    refine ⟨?_, ?_, ?_, ?_⟩
    · rw [hnxdef, if_pos hc, mul_one]
    · rw [hnxdef, if_pos hc, mul_one]
    · rw [hnydef, if_pos hc]
      field_simp
      ring
    · rw [hnydef, if_pos hc]
      field_simp
      ring

/-- Witness for the obstacle-separation theorem: two 18-pixel obstacles
spawned at the identical position on a 100 by 100 field. -/
theorem resolveObstacleCollision_separates_witness :
    (0:ℝ) < 100 ∧
    Real.sqrt (((50:ℝ) / 100 * 100 - 50 / 100 * 100) *
        ((50:ℝ) / 100 * 100 - 50 / 100 * 100) +
      ((50:ℝ) / 100 * 100 - 50 / 100 * 100) *
        ((50:ℝ) / 100 * 100 - 50 / 100 * 100)) < 18 + 18 ∧
    ∃ p1 p2 v1 v2,
      (resolveObstacleCollision ⟨50, 50⟩ ⟨0, 0⟩ 18 ⟨50, 50⟩ ⟨0, 0⟩ 18 100
          100).collided = true ∧
      (resolveObstacleCollision ⟨50, 50⟩ ⟨0, 0⟩ 18 ⟨50, 50⟩ ⟨0, 0⟩ 18 100
          100).newPosition1 = some p1 ∧
      (resolveObstacleCollision ⟨50, 50⟩ ⟨0, 0⟩ 18 ⟨50, 50⟩ ⟨0, 0⟩ 18 100
          100).newPosition2 = some p2 ∧
      (resolveObstacleCollision ⟨50, 50⟩ ⟨0, 0⟩ 18 ⟨50, 50⟩ ⟨0, 0⟩ 18 100
          100).newVelocity1 = some v1 ∧
      (resolveObstacleCollision ⟨50, 50⟩ ⟨0, 0⟩ 18 ⟨50, 50⟩ ⟨0, 0⟩ 18 100
          100).newVelocity2 = some v2 ∧
      (18:ℝ) + 18 ≤ Real.sqrt
        ((p2.x / 100 * 100 - p1.x / 100 * 100) *
            (p2.x / 100 * 100 - p1.x / 100 * 100) +
          (p2.y / 100 * 100 - p1.y / 100 * 100) *
            (p2.y / 100 * 100 - p1.y / 100 * 100)) ∧
      |v1.x| ≤ MAX_VELOCITY ∧ |v1.y| ≤ MAX_VELOCITY ∧
      |v2.x| ≤ MAX_VELOCITY ∧ |v2.y| ≤ MAX_VELOCITY ∧
      (Real.sqrt (((50:ℝ) / 100 * 100 - 50 / 100 * 100) *
            ((50:ℝ) / 100 * 100 - 50 / 100 * 100) +
          ((50:ℝ) / 100 * 100 - 50 / 100 * 100) *
            ((50:ℝ) / 100 * 100 - 50 / 100 * 100)) < EPSILON →
        p1.x = ((50:ℝ) / 100 * 100 -
            ((18 + 18 - Real.sqrt (((50:ℝ) / 100 * 100 - 50 / 100 * 100) *
                  ((50:ℝ) / 100 * 100 - 50 / 100 * 100) +
                ((50:ℝ) / 100 * 100 - 50 / 100 * 100) *
                  ((50:ℝ) / 100 * 100 - 50 / 100 * 100))) / 2 +
              EPSILON)) / 100 * 100 ∧
        p2.x = ((50:ℝ) / 100 * 100 +
            ((18 + 18 - Real.sqrt (((50:ℝ) / 100 * 100 - 50 / 100 * 100) *
                  ((50:ℝ) / 100 * 100 - 50 / 100 * 100) +
                ((50:ℝ) / 100 * 100 - 50 / 100 * 100) *
                  ((50:ℝ) / 100 * 100 - 50 / 100 * 100))) / 2 +
              EPSILON)) / 100 * 100 ∧
        p1.y = 50 ∧ p2.y = 50) := by
  have hover : Real.sqrt (((50:ℝ) / 100 * 100 - 50 / 100 * 100) *
      ((50:ℝ) / 100 * 100 - 50 / 100 * 100) +
    ((50:ℝ) / 100 * 100 - 50 / 100 * 100) *
      ((50:ℝ) / 100 * 100 - 50 / 100 * 100)) < 18 + 18 := by
    norm_num
  exact ⟨by norm_num, hover,
    resolveObstacleCollision_separates ⟨50, 50⟩ ⟨0, 0⟩ 18 ⟨50, 50⟩ ⟨0, 0⟩
      18 100 100 (by norm_num) (by norm_num) hover⟩

/-- C3 counterexample: for two coincident 18-pixel circles the first
circle's center is moved to pixel x = 31.999 — half the 36-pixel
penetration depth plus the 0.001 EPSILON — not to the 32 that movement by
exactly half the penetration depth would give. -/
theorem resolveObstacleCollision_half_depth_counterexample :
    (resolveObstacleCollision ⟨50, 50⟩ ⟨0, 0⟩ 18 ⟨50, 50⟩ ⟨0, 0⟩ 18 100
        100).newPosition1 = some ⟨31.999, 50⟩ ∧
    (31.999:ℝ) ≠ 50 - (18 + 18) / 2 := by
  constructor
  · norm_num [resolveObstacleCollision, EPSILON]
  · norm_num

end JetGame
